import Mathlib

/-
Verification of the reliable-call core and markup normalizer of the
confluence-mcp-server repository.

The development shallowly embeds the relevant Python source files:
  - src/core/exceptions.py      (error taxonomy)
  - src/core/retry.py           (is_retryable_error, calculate_delay,
                                 retry_with_backoff's wrapper loop)
  - src/core/html_utils.py      (html_to_markdown and its helpers,
                                 html_to_markdown_simple's empty guard)
  - src/core/error_handling.py  (handle_api_errors)

Python floats are modelled as rationals; Python strings as Lean strings,
with character-list implementations of the string primitives used by the
source so that all definitions evaluate inside the kernel.
-/

/-! ## String primitives (models of the Python string operations used) -/

/-- Python's notion of a whitespace character for str.strip / str.rstrip. -/
def py_space (c : Char) : Bool :=
  c == ' ' || c == '\t' || c == '\n' || c == '\r' || c == '\x0b' || c == '\x0c'

/-- Python str.strip with no arguments: drop leading and trailing whitespace. -/
def py_strip (s : String) : String :=
  String.mk (((s.data.dropWhile py_space).reverse.dropWhile py_space).reverse)

/-- Python str.rstrip with no arguments: drop trailing whitespace. -/
def py_rstrip (s : String) : String :=
  String.mk ((s.data.reverse.dropWhile py_space).reverse)

/-- Python str.lower restricted to ASCII case mapping (sufficient for the
error messages and fixed patterns compared in the source). -/
def py_lower (s : String) : String :=
  String.mk (s.data.map Char.toLower)

/-- If `ps` is a prefix of `l`, return the remainder of `l` after it. -/
def drop_prefix_after (ps : List Char) (l : List Char) : Option (List Char) :=
  match ps, l with
  | [], rest => some rest
  | _ :: _, [] => none
  | p :: ps, c :: cs => if c == p then drop_prefix_after ps cs else none

/-- Replace every non-overlapping occurrence of `pat` (nonempty) by `rep`,
scanning left to right.  The fuel argument (instantiated with the input
length) only makes the recursion structural; it never runs out because each
step consumes at least one character. -/
def replace_fuel (pat rep : List Char) : Nat → List Char → List Char
  | 0, l => l
  | _ + 1, [] => []
  | fuel + 1, c :: cs =>
    match drop_prefix_after pat (c :: cs) with
    | some rest => rep ++ replace_fuel pat rep fuel rest
    | none => c :: replace_fuel pat rep fuel cs

/-- Python str.replace: replace all non-overlapping occurrences of `pat`
by `rep`, left to right (for nonempty `pat`, the only case the source uses). -/
def py_replace (s pat rep : String) : String :=
  match pat.data with
  | [] => s
  | p :: ps => String.mk (replace_fuel (p :: ps) rep.data s.data.length s.data)

/-- Python str.startswith. -/
def starts_with (s pre : String) : Bool := pre.data.isPrefixOf s.data

/-- Python's substring membership test `pat in s`. -/
def contains_sub (s pat : String) : Bool :=
  go s.data
where
  go : List Char → Bool
    | [] => pat.data.isPrefixOf []
    | c :: cs => pat.data.isPrefixOf (c :: cs) || go cs

/-- Python str.split on a single newline character. -/
def split_on_nl (s : String) : List String :=
  (go s.data).map String.mk
where
  go : List Char → List (List Char)
    | [] => [[]]
    | c :: cs =>
      if c == '\n' then [] :: go cs
      else match go cs with
        | [] => [[c]]
        | l :: ls => (c :: l) :: ls

/-- Python sep.join of a list of strings. -/
def join_sep (sep : String) : List String → String
  | [] => ""
  | [s] => s
  | s :: rest => s ++ sep ++ join_sep sep rest

/-! ## Error taxonomy (src/core/exceptions.py)

Each constructor models one concrete exception class, holding the
constructor arguments that are observable through the attributes the core
reads (`message`, `status_code`, `retry_after`, `total_retries`,
`last_exception`).  `generic` models a plain Python `Exception`. -/

inductive Exc where
  /-- ConfluenceAPIError(message, status_code) with no specific subclass. -/
  | apiError (message : String) (statusCode : Option Int)
  /-- ConfluenceAuthenticationError(message); fixed status_code 401. -/
  | authError (message : String)
  /-- ConfluencePermissionError(message); fixed status_code 403. -/
  | permError (message : String)
  /-- ConfluenceNotFoundError(resource_type, resource_id); fixed status_code 404. -/
  | notFoundError (resourceType resourceId : String)
  /-- ConfluenceRateLimitError(retry_after); fixed status_code 429. -/
  | rateLimitError (retryAfter : Option Int)
  /-- ValidationError(message) with default field/value arguments. -/
  | validationError (message : String)
  /-- ConfluenceMCPError(message) base class with default code/details. -/
  | mcpError (message : String)
  /-- MaxRetriesExceededError(message, total_retries, last_exception). -/
  | maxRetries (message : String) (totalRetries : Nat) (lastException : Option Exc)
  /-- A plain Python Exception carrying only its message. -/
  | generic (message : String)

/-- The `.message` attribute (ConfluenceMCPError) or the argument of a plain
Exception.  ConfluenceNotFoundError builds its message from its arguments. -/
def exc_message : Exc → String
  | .apiError m _ => m
  | .authError m => m
  | .permError m => m
  | .notFoundError rt rid => rt ++ " not found: " ++ rid
  | .rateLimitError _ => "Rate limit exceeded"
  | .validationError m => m
  | .mcpError m => m
  | .maxRetries m _ _ => m
  | .generic m => m

/-- The `.status_code` attribute of ConfluenceAPIError and its subclasses;
`none` for exceptions that have no such attribute. -/
def exc_status_code : Exc → Option Int
  | .apiError _ sc => sc
  | .authError _ => some 401
  | .permError _ => some 403
  | .notFoundError _ _ => some 404
  | .rateLimitError _ => some 429
  | _ => none

/-- isinstance(e, ConfluenceAPIError). -/
def isConfluenceAPIError : Exc → Bool
  | .apiError _ _ => true
  | .authError _ => true
  | .permError _ => true
  | .notFoundError _ _ => true
  | .rateLimitError _ => true
  | _ => false

/-- isinstance(e, ConfluenceRateLimitError). -/
def isRateLimitError : Exc → Bool
  | .rateLimitError _ => true
  | _ => false

/-- isinstance(e, ConfluenceAuthenticationError). -/
def isAuthenticationError : Exc → Bool
  | .authError _ => true
  | _ => false

/-- isinstance(e, ConfluencePermissionError). -/
def isPermissionError : Exc → Bool
  | .permError _ => true
  | _ => false

/-- isinstance(e, ConfluenceNotFoundError). -/
def isNotFoundError : Exc → Bool
  | .notFoundError _ _ => true
  | _ => false

/-- isinstance(e, ConfluenceMCPError): every modelled class except a plain
Exception derives from the ConfluenceMCPError base class. -/
def isConfluenceMCPError : Exc → Bool
  | .generic _ => false
  | _ => true

/-- isinstance(e, MaxRetriesExceededError). -/
def isMaxRetriesError : Exc → Bool
  | .maxRetries _ _ _ => true
  | _ => false

/-- The `.retry_after` attribute of ConfluenceRateLimitError. -/
def rate_retry_after : Exc → Option Int
  | .rateLimitError ra => ra
  | _ => none

mutual

/-- Python str(e): ConfluenceMCPError.__str__ renders "[code] message" with
a "(key=value, ...)" suffix when the details dict is nonempty; details are
inserted in the order the constructors build them.  A plain Exception
renders just its message. -/
def excStr : Exc → String
  | .generic m => m
  | .apiError m sc =>
    "[CONFLUENCE_API_ERROR] " ++ m ++
      (match sc with
       | some c => " (status_code=" ++ toString c ++ ")"
       | none => "")
  | .authError m =>
    "[AUTHENTICATION_ERROR] " ++ m ++ " (status_code=401, code=AUTHENTICATION_ERROR)"
  | .permError m =>
    "[PERMISSION_ERROR] " ++ m ++ " (status_code=403, code=PERMISSION_ERROR)"
  | .notFoundError rt rid =>
    "[NOT_FOUND_ERROR] " ++ (rt ++ " not found: " ++ rid) ++
      " (resource_type=" ++ rt ++ ", resource_id=" ++ rid ++
      ", status_code=404, code=NOT_FOUND_ERROR)"
  | .rateLimitError ra =>
    "[RATE_LIMIT_ERROR] Rate limit exceeded (retry_after=" ++
      (match ra with
       | some n => toString n
       | none => "None") ++ ", status_code=429, code=RATE_LIMIT_ERROR)"
  | .validationError m => "[VALIDATION_ERROR] " ++ m
  | .mcpError m => "[INTERNAL_ERROR] " ++ m
  | .maxRetries m t le =>
    "[MAX_RETRIES_EXCEEDED] " ++ m ++ " (total_retries=" ++ toString t ++
      ", last_exception=" ++ excStrOpt le ++ ")"

/-- str(last_exception) if last_exception else None, as stored in the
details dict of MaxRetriesExceededError. -/
def excStrOpt : Option Exc → String
  | none => "None"
  | some e => excStr e

end

/-! ## Retry engine (src/core/retry.py) -/

/-- RETRYABLE_ERROR_CODES = {429, 500, 502, 503, 504}. -/
def RETRYABLE_ERROR_CODES : List Int := [429, 500, 502, 503, 504]

/-- The fixed transience indicators matched against str(e).lower(). -/
def retryable_patterns : List String :=
  ["connection", "timeout", "temporary failure", "service unavailable", "too many requests"]

/-- is_retryable_error (retry.py lines 41-78), branch for branch:
rate-limit errors are retryable; listed status codes are retryable;
authentication/permission errors are not; other API errors are retryable
only when a status code is present and at least 500; otherwise the
lowercased text is scanned for the transience indicators, and the final
default is retryable. -/
def is_retryable_error (e : Exc) : Bool :=
  if isConfluenceAPIError e then
    if isRateLimitError e then true
    else if (match exc_status_code e with
             | some c => RETRYABLE_ERROR_CODES.contains c
             | none => false) then true
    else if isAuthenticationError e || isPermissionError e then false
    else
      match exc_status_code e with
      | some c => decide (500 ≤ c)
      | none => false
  else
    if retryable_patterns.any (fun p => contains_sub (py_lower (excStr e)) p) then true
    else true

/-- calculate_delay (retry.py lines 81-111).  The uniformly random jitter in
[0, 1) drawn by the source on each call is passed explicitly. -/
def calculate_delay (attempt : Nat) (initial_delay max_delay backoff_factor : ℚ)
    (retry_after : Option Int) (jitter : ℚ) : ℚ :=
  match retry_after with
  | some r => min (r : ℚ) max_delay
  | none => min (initial_delay * backoff_factor ^ attempt + jitter) max_delay

/-- The retry-after extraction inside the wrapper (retry.py lines 164-166):
only a ConfluenceRateLimitError contributes its retry_after value. -/
def wrapper_retry_after (e : Exc) : Option Int :=
  if isRateLimitError e then rate_retry_after e else none

/-- The retryability decision inside the wrapper (retry.py lines 153-157):
with a truthy (nonempty) explicit collection, membership in it; otherwise
the default classifier.  Exception types are modelled as predicates. -/
def wrapper_should_retry (retryable_errors : List (Exc → Bool)) (e : Exc) : Bool :=
  if retryable_errors.isEmpty then is_retryable_error e
  else retryable_errors.any (fun t => t e)

/-- The MaxRetriesExceededError raised on exhaustion (retry.py lines 194-198). -/
def mk_max_retries (funcName : String) (max_retries : Nat) (last : Exc) : Exc :=
  .maxRetries ("Max retries (" ++ toString max_retries ++ ") exceeded for " ++ funcName)
    max_retries (some last)

/-- The retry loop of retry_with_backoff's wrapper (retry.py lines 142-198).
`op k` is the outcome of the k-th invocation of the wrapped function
(0-indexed); `left` counts the attempts that may still follow, so `left = 0`
exactly when `attempt >= max_retries` and the loop breaks on failure.
Sleeping and logging have no bearing on the returned value and are not
modelled.  The result pairs the outcome with the number of invocations made. -/
def retry_loop {α : Type} (funcName : String) (op : Nat → Except Exc α)
    (max_retries : Nat) (retryable_errors : List (Exc → Bool)) :
    Nat → Nat → Except Exc α × Nat
  | 0, attempt =>
    match op attempt with
    | .ok v => (.ok v, attempt + 1)
    | .error e => (.error (mk_max_retries funcName max_retries e), attempt + 1)
  | left + 1, attempt =>
    match op attempt with
    | .ok v => (.ok v, attempt + 1)
    | .error e =>
      if wrapper_should_retry retryable_errors e then
        retry_loop funcName op max_retries retryable_errors left (attempt + 1)
      else (.error e, attempt + 1)

/-- retry_with_backoff's synchronous wrapper: run the loop from attempt 0
with max_retries further attempts allowed.  A Python None (or empty)
retryable_errors argument is the empty list. -/
def retry_with_backoff_wrapper {α : Type} (funcName : String) (op : Nat → Except Exc α)
    (max_retries : Nat) (retryable_errors : List (Exc → Bool)) : Except Exc α × Nat :=
  retry_loop funcName op max_retries retryable_errors max_retries 0

/-! ## Markup tree (the BeautifulSoup elements consumed by html_utils.py)

A node is either a navigable string or a tag with a name, its non-class
attributes, its class list (BeautifulSoup surfaces the class attribute as a
list), and its children in document order. -/

inductive HNode where
  | text (s : String)
  | elem (tag : String) (attrs : List (String × String)) (classes : List String)
      (children : List HNode)

/-- element.get(key, default) for a string-valued attribute. -/
def attr_get (attrs : List (String × String)) (key dflt : String) : String :=
  match attrs.lookup key with
  | some v => v
  | none => dflt

mutual

/-- BeautifulSoup element.get_text(): concatenation of all descendant
strings, unmodified. -/
def raw_text : HNode → String
  | .text s => s
  | .elem _ _ _ children => raw_text_list children

/-- get_text() of a list of children. -/
def raw_text_list : List HNode → String
  | [] => ""
  | c :: cs => raw_text c ++ raw_text_list cs

end

mutual

/-- BeautifulSoup element.get_text(strip=True): concatenation of all
descendant strings, each stripped. -/
def strip_text : HNode → String
  | .text s => py_strip s
  | .elem _ _ _ children => strip_text_list children

/-- get_text(strip=True) of a list of children. -/
def strip_text_list : List HNode → String
  | [] => ""
  | c :: cs => strip_text c ++ strip_text_list cs

end

/-- The contribution of one direct child inside get_element_text
(html_utils.py lines 146-172): raw text for strings, inline wrapping for
strong/b, em/i, code and anchors, stripped visible text for anything else;
empty contributions are skipped, which joining with "" makes a no-op. -/
def inline_child_text (child : HNode) : String :=
  match child with
  | .text s => s
  | .elem tag attrs _ children =>
    if tag == "strong" || tag == "b" then
      let t := strip_text_list children
      if t.isEmpty then "" else "**" ++ t ++ "**"
    else if tag == "em" || tag == "i" then
      let t := strip_text_list children
      if t.isEmpty then "" else "*" ++ t ++ "*"
    else if tag == "code" then
      let t := strip_text_list children
      if t.isEmpty then "" else "`" ++ t ++ "`"
    else if tag == "a" then
      let t := strip_text_list children
      let href := attr_get attrs "href" ""
      if !t.isEmpty && !href.isEmpty then "[" ++ t ++ "](" ++ href ++ ")"
      else if !t.isEmpty then t
      else ""
    else
      let t := strip_text_list children
      if t.isEmpty then "" else t

/-- get_element_text (html_utils.py lines 144-173): inline-preserving text
of an element, built from its direct children.  The source only ever calls
it on tags, never on strings. -/
def get_element_text : HNode → String
  | .text _ => ""
  | .elem _ _ _ children => String.join (children.map inline_child_text)

/-- element.find_all(name, recursive=False): the direct children that are
tags with the given name. -/
def direct_children_named (name : String) (children : List HNode) : List HNode :=
  children.filter fun c =>
    match c with
    | .elem t _ _ _ => t == name
    | .text _ => false

mutual

/-- element.find_all(names): all descendant tags whose name is in `names`,
in document order (an element precedes its own descendants). -/
def descendants_matching (names : List String) : HNode → List HNode
  | .text _ => []
  | .elem _ _ _ children => descendants_matching_list names children

/-- find_all over a list of sibling subtrees. -/
def descendants_matching_list (names : List String) : List HNode → List HNode
  | [] => []
  | .text _ :: cs => descendants_matching_list names cs
  | .elem t a cl ch :: cs =>
    (if names.contains t then [HNode.elem t a cl ch] else []) ++
      descendants_matching_list names ch ++ descendants_matching_list names cs

end

/-- One markdown table row: '| ' + ' | '.join(cells) + ' |'. -/
def table_row (cells : List String) : String :=
  "| " ++ join_sep " | " cells ++ " |"

/-- process_table (html_utils.py lines 175-194): all descendant tr rows; an
empty row list yields ""; the first row is rendered as a header followed by
a '---' separator with one entry per header cell; remaining rows are data
rows; cells are the th/td descendants rendered with get_element_text. -/
def process_table (table : HNode) : String :=
  match descendants_matching ["tr"] table with
  | [] => ""
  | r0 :: rest =>
    let cells0 := (descendants_matching ["th", "td"] r0).map get_element_text
    let header := table_row cells0
    let sep := table_row (cells0.map fun _ => "---")
    let dataRows := rest.map fun r =>
      table_row ((descendants_matching ["th", "td"] r).map get_element_text)
    join_sep "\n" (header :: sep :: dataRows) ++ "\n"

mutual

/-- process_element (html_utils.py lines 28-142).  `parent` is the name of
the node's parent tag (none only above the document root); the source reads
it only to decide whether a code tag sits inside a pre block.  Strings are
stripped; each tag branch mirrors the source dispатch in order. -/
def process_element (parent : Option String) : HNode → String
  | .text s => py_strip s
  | .elem tag attrs classes children =>
    match tag with
    | "h1" | "h2" | "h3" | "h4" | "h5" | "h6" =>
      let level := match tag.data.drop 1 with
        | d :: _ => d.toNat - 48
        | [] => 0
      let t := get_element_text (.elem tag attrs classes children)
      "\n" ++ String.mk (List.replicate level '#') ++ " " ++ t ++ "\n"
    | "p" =>
      let t := py_strip (process_children "p" children)
      if t.isEmpty then "" else t ++ "\n"
    | "b" | "strong" =>
      "**" ++ get_element_text (.elem tag attrs classes children) ++ "**"
    | "i" | "em" =>
      "*" ++ get_element_text (.elem tag attrs classes children) ++ "*"
    | "code" =>
      let t := get_element_text (.elem tag attrs classes children)
      if parent == some "pre" then t else "`" ++ t ++ "`"
    | "pre" =>
      let code := raw_text_list children
      let lang := classes.foldl
        (fun acc c =>
          if starts_with c "language-" then py_replace c "language-" "" ++ " " else acc) ""
      "\n```" ++ lang ++ py_strip code ++ "\n```\n"
    | "a" =>
      let t := get_element_text (.elem tag attrs classes children)
      let href := attr_get attrs "href" ""
      if !href.isEmpty then "[" ++ t ++ "](" ++ href ++ ")" else t
    | "ul" =>
      let items := (direct_children_named "li" children).map
        fun li => "- " ++ get_element_text li
      join_sep "\n" items ++ "\n"
    | "ol" =>
      let items := (direct_children_named "li" children).enum.map
        fun p => toString (p.1 + 1) ++ ". " ++ get_element_text p.2
      join_sep "\n" items ++ "\n"
    | "li" =>
      py_strip (process_children "li" children)
    | "table" =>
      process_table (.elem tag attrs classes children)
    | "br" => "\n"
    | "hr" => "\n---\n"
    | "img" =>
      let alt := attr_get attrs "alt" ""
      let src := attr_get attrs "src" ""
      if !src.isEmpty then "![" ++ alt ++ "](" ++ src ++ ")" else ""
    | "blockquote" =>
      let t := get_element_text (.elem tag attrs classes children)
      let lines := split_on_nl t
      let quoted := join_sep "\n" ((lines.filter fun l => !l.isEmpty).map fun l => "> " ++ l)
      quoted ++ "\n"
    | "div" | "span" | "section" | "article" | "main" | "body" =>
      process_children tag children
    | _ =>
      get_element_text (.elem tag attrs classes children)

/-- The child-processing loops of process_element (and the top-level loop):
concatenate the children's renderings, skipping empties, with the current
tag as the children's parent. -/
def process_children (parentTag : String) : List HNode → String
  | [] => ""
  | c :: cs => process_element (some parentTag) c ++ process_children parentTag cs

end

/-- The language-hint loop of the pre branch (html_utils.py lines 73-77):
fold over the class list, overwriting the hint with
c.replace("language-", "") plus a trailing space for every class that
starts with "language-", so the last such class wins.  The fold body is
syntactically the one inside process_element, so the two agree
definitionally. -/
def pre_language (classes : List String) : String :=
  classes.foldl
    (fun acc c =>
      if starts_with c "language-" then py_replace c "language-" "" ++ " " else acc) ""

mutual

/-- Removal of script/style/noscript subtrees (html_utils.py lines 25-26)
inside one node. -/
def scrub_node : HNode → HNode
  | .text s => .text s
  | .elem t a cl ch => .elem t a cl (scrub_list ch)

/-- tag.decompose() applied over a forest: drop every script, style and
noscript element together with its whole subtree. -/
def scrub_list : List HNode → List HNode
  | [] => []
  | .text s :: cs => .text s :: scrub_list cs
  | .elem t a cl ch :: cs =>
    if ["script", "style", "noscript"].contains t then scrub_list cs
    else .elem t a cl (scrub_list ch) :: scrub_list cs

end

/-- re.sub(r"\n{3,}", "\n\n", s): every maximal run of newlines longer than
two collapses to exactly two.  `pending` counts the newlines of the current
run. -/
def collapse_go (pending : Nat) : List Char → List Char
  | [] => List.replicate (min pending 2) '\n'
  | c :: cs =>
    if c == '\n' then collapse_go (pending + 1) cs
    else List.replicate (min pending 2) '\n' ++ c :: collapse_go 0 cs

/-- The blank-line cleanup of html_to_markdown (line 207). -/
def collapse_newlines (s : String) : String :=
  String.mk (collapse_go 0 s.data)

/-- The per-line trailing-whitespace cleanup of html_to_markdown
(lines 210-211). -/
def rstrip_lines (s : String) : String :=
  join_sep "\n" ((split_on_nl s).map py_rstrip)

/-- html_to_markdown (html_utils.py lines 6-213).  Parsing is performed by
the external BeautifulSoup library and is passed in as `parse`; a Python
None argument is `none`.  A falsy input returns "" before the parser is
ever invoked (lines 19-20); otherwise the scrubbed tree is rendered child
by child (the soup's own name is "[document]") and cleaned up. -/
def html_to_markdown (html_content : Option String) (parse : String → List HNode) : String :=
  match html_content with
  | none => ""
  | some s =>
    if s.isEmpty then ""
    else
      let soup := scrub_list (parse s)
      let markdown := process_children "[document]" soup
      py_strip (rstrip_lines (collapse_newlines markdown))

/-- html_to_markdown_simple (html_utils.py lines 216-279).  The properties
stated about it concern only the empty-input guard (lines 228-229); the
post-guard substitution pipeline (lines 232-279) is abstracted as
`transform` and the theorems below hold for every such pipeline. -/
def html_to_markdown_simple (html_content : Option String) (transform : String → String) :
    String :=
  match html_content with
  | none => ""
  | some s => if s.isEmpty then "" else transform s

/-! ## Operation-boundary error handling (src/core/error_handling.py) -/

/-- The value a function decorated with handle_api_errors gives its caller:
either the wrapped function's result or an error string. -/
inductive HandledResult (α : Type) where
  | value (a : α)
  | errorMessage (s : String)

/-- The text following "Error: " in each except clause of handle_api_errors
(error_handling.py lines 46-71), in source order.  Python's `if
e.retry_after:` is falsy for both None and 0.  The MaxRetriesExceededError
clause is kept although it is unreachable: that class derives from
ConfluenceMCPError, whose clause precedes it. -/
def error_body (e : Exc) : String :=
  if isNotFoundError e then exc_message e
  else if isAuthenticationError e then "Authentication failed. Please check your credentials."
  else if isPermissionError e then
    "Permission denied. You don\x27t have access to this resource."
  else if isRateLimitError e then
    match rate_retry_after e with
    | some n =>
      if n == 0 then "Rate limit exceeded. Please try again later."
      else "Rate limit exceeded. Please try again in " ++ toString n ++ " seconds."
    | none => "Rate limit exceeded. Please try again later."
  else if isConfluenceAPIError e then exc_message e
  else if isConfluenceMCPError e then exc_message e
  else if isMaxRetriesError e then
    "Operation failed after multiple attempts. Please try again later."
  else "An unexpected error occurred: " ++ excStr e

/-- handle_api_errors (error_handling.py lines 30-73): a successful call's
result is returned unchanged; every raised exception is converted to a
returned string "Error: " + error_body. -/
def handle_api_errors {α : Type} (call : Except Exc α) : HandledResult α :=
  match call with
  | .ok a => .value a
  | .error e => .errorMessage ("Error: " ++ error_body e)

/-! ## Claims -/

/-- C1 counterexample: with max_retries = 0 a non-retryable error (an
authentication failure) does not propagate unchanged — the break on
`attempt >= max_retries` precedes the retryability check, so the single
failure is wrapped in MaxRetriesExceededError. -/
theorem C1_counterexample :
    is_retryable_error (Exc.authError "Authentication failed") = false ∧
    retry_with_backoff_wrapper "f"
        (fun _ => (Except.error (Exc.authError "Authentication failed") : Except Exc Nat)) 0 [] =
      (Except.error (Exc.maxRetries "Max retries (0) exceeded for f" 0
        (some (Exc.authError "Authentication failed"))), 1) ∧
    (retry_with_backoff_wrapper "f"
        (fun _ => (Except.error (Exc.authError "Authentication failed") : Except Exc Nat)) 0 []).1 ≠
      Except.error (Exc.authError "Authentication failed") := by
  refine ⟨rfl, rfl, ?_⟩
  intro h
  have h2 : (Except.error (Exc.maxRetries "Max retries (0) exceeded for f" 0
      (some (Exc.authError "Authentication failed"))) : Except Exc Nat) =
      Except.error (Exc.authError "Authentication failed") := h
  injection h2 with h3
  exact Exc.noConfusion h3

/-- C1 (amended): for every operation, every error judged non-retryable
(by the explicit retryable set or the default classifier) and every
max_retries >= 1, the wrapper makes exactly 1 attempt and the original
exception propagates unchanged. -/
theorem C1_amended {α : Type} (funcName : String) (op : Nat → Except Exc α)
    (max_retries : Nat) (retryable_errors : List (Exc → Bool)) (e : Exc)
    (h0 : op 0 = Except.error e)
    (hnr : wrapper_should_retry retryable_errors e = false)
    (hmr : 1 ≤ max_retries) :
    retry_with_backoff_wrapper funcName op max_retries retryable_errors =
      (Except.error e, 1) := by
  obtain ⟨m, rfl⟩ : ∃ m, max_retries = m + 1 := ⟨max_retries - 1, by omega⟩
  simp [retry_with_backoff_wrapper, retry_loop, h0, hnr]

/-- C1 witness: an authentication failure under max_retries = 3 surfaces
unchanged after a single invocation. -/
theorem C1_witness :
    retry_with_backoff_wrapper "f"
        (fun _ => (Except.error (Exc.authError "x") : Except Exc Nat)) 3 [] =
      (Except.error (Exc.authError "x"), 1) :=
  C1_amended "f" (fun _ => Except.error (Exc.authError "x")) 3 [] (Exc.authError "x")
    rfl (by decide) (by decide)

/-- Exhaustion lemma for the retry loop: if every invocation fails with a
retryable error, the loop consumes all remaining attempts and wraps the
error of the last one. -/
theorem retry_loop_exhaust {α : Type} (funcName : String) (op : Nat → Except Exc α)
    (max_retries : Nat) (retryable_errors : List (Exc → Bool)) (errOf : Nat → Exc)
    (hop : ∀ k, op k = Except.error (errOf k))
    (hr : ∀ k, wrapper_should_retry retryable_errors (errOf k) = true) :
    ∀ left attempt,
      retry_loop funcName op max_retries retryable_errors left attempt =
        (Except.error (mk_max_retries funcName max_retries (errOf (attempt + left))),
          attempt + left + 1) := by
  intro left
  induction left with
  | zero => intro attempt; simp [retry_loop, hop attempt]
  | succ l ih =>
    intro attempt
    have harith : attempt + 1 + l = attempt + (l + 1) := by omega
    have h2 := ih (attempt + 1)
    rw [harith] at h2
    simp [retry_loop, hop attempt, hr attempt, h2]

/-- C2: if the operation fails with a retryable error on every attempt and
max_retries = N, the wrapper invokes it exactly N + 1 times and raises
MaxRetriesExceededError whose last_exception is the error of the final
(N+1-th) attempt and whose total_retries is N. -/
theorem C2_theorem {α : Type} (funcName : String) (op : Nat → Except Exc α) (N : Nat)
    (retryable_errors : List (Exc → Bool)) (errOf : Nat → Exc)
    (hop : ∀ k, op k = Except.error (errOf k))
    (hr : ∀ k, wrapper_should_retry retryable_errors (errOf k) = true) :
    retry_with_backoff_wrapper funcName op N retryable_errors =
      (Except.error (Exc.maxRetries
        ("Max retries (" ++ toString N ++ ") exceeded for " ++ funcName) N (some (errOf N))),
        N + 1) := by
  have h := retry_loop_exhaust funcName op N retryable_errors errOf hop hr N 0
  simpa [retry_with_backoff_wrapper, mk_max_retries] using h

/-- C2 witness: an always-rate-limited operation under max_retries = 2 is
invoked 3 times and the final wrap records total_retries = 2 and the last
error. -/
theorem C2_witness :
    retry_with_backoff_wrapper "f"
        (fun _ => (Except.error (Exc.rateLimitError (some 5)) : Except Exc Nat)) 2 [] =
      (Except.error (Exc.maxRetries
        ("Max retries (" ++ toString 2 ++ ") exceeded for " ++ "f") 2
        (some (Exc.rateLimitError (some 5)))), 2 + 1) :=
  C2_theorem "f" (fun _ => Except.error (Exc.rateLimitError (some 5))) 2 []
    (fun _ => Exc.rateLimitError (some 5)) (fun _ => rfl)
    (fun _ => by
      show wrapper_should_retry [] (Exc.rateLimitError (some 5)) = true
      decide)

/-- C3 counterexample: with the per-call random jitter made explicit,
calculate_delay is not monotone in the attempt index even well below the
max_delay clamp — initial_delay 1/10, backoff 11/10, jitter 9/10 then 0
gives delay(0) = 1 but delay(1) = 11/100. -/
theorem C3_counterexample :
    0 < (1/10 : ℚ) ∧ (1/10 : ℚ) ≤ 30 ∧ (1 : ℚ) < 11/10 ∧
    0 ≤ (9/10 : ℚ) ∧ (9/10 : ℚ) < 1 ∧ 0 ≤ (0 : ℚ) ∧ (0 : ℚ) < 1 ∧
    calculate_delay 1 (1/10) 30 (11/10) none 0 <
      calculate_delay 0 (1/10) 30 (11/10) none (9/10) ∧
    calculate_delay 0 (1/10) 30 (11/10) none (9/10) ≤ 30 := by
  norm_num [calculate_delay, min_def]

/-- C3 (amended): for fixed initial_delay > 0, backoff_factor > 1 and a
fixed jitter value, calculate_delay is monotone non-decreasing in the
attempt index, and for every attempt, retry_after and jitter the returned
delay never exceeds max_delay. -/
theorem C3_amended (initial_delay max_delay backoff_factor jitter : ℚ)
    (hinit : 0 < initial_delay) (hb : 1 < backoff_factor) :
    (∀ k m : Nat, k ≤ m →
      calculate_delay k initial_delay max_delay backoff_factor none jitter ≤
        calculate_delay m initial_delay max_delay backoff_factor none jitter) ∧
    (∀ (k : Nat) (retry_after : Option Int) (j : ℚ),
      calculate_delay k initial_delay max_delay backoff_factor retry_after j ≤ max_delay) := by
  constructor
  · intro k m hkm
    simp only [calculate_delay]
    refine min_le_min ?_ le_rfl
    have hpow : backoff_factor ^ k ≤ backoff_factor ^ m := pow_le_pow_right₀ hb.le hkm
    have hmul := mul_le_mul_of_nonneg_left hpow hinit.le
    linarith
  · intro k ra j
    cases ra with
    | none => simp only [calculate_delay]; exact min_le_right _ _
    | some r => simp only [calculate_delay]; exact min_le_right _ _

/-- C3 witness: with defaults initial 1, max 30, backoff 2 and jitter 1/2,
the delay for attempt 0 is at most the delay for attempt 3, and attempt 5
stays within max_delay. -/
theorem C3_witness :
    calculate_delay 0 1 30 2 none (1/2) ≤ calculate_delay 3 1 30 2 none (1/2) ∧
    calculate_delay 5 1 30 2 none (1/2) ≤ 30 :=
  ⟨(C3_amended 1 30 2 (1/2) (by norm_num) (by norm_num)).1 0 3 (by norm_num),
   (C3_amended 1 30 2 (1/2) (by norm_num) (by norm_num)).2 5 none (1/2)⟩

/-- C4: a rate-limit error carrying retry_after = R makes the wrapper pass
some R to calculate_delay, which then returns exactly min(R, max_delay),
independent of the attempt index and with no jitter added. -/
theorem C4_theorem (k : Nat) (initial_delay max_delay backoff_factor jitter : ℚ) (R : Int) :
    wrapper_retry_after (Exc.rateLimitError (some R)) = some R ∧
    calculate_delay k initial_delay max_delay backoff_factor
      (wrapper_retry_after (Exc.rateLimitError (some R))) jitter = min (R : ℚ) max_delay :=
  ⟨rfl, rfl⟩

/-- C5: authentication and permission errors are never retryable whatever
their message, and rate-limit errors are always retryable. -/
theorem C5_theorem (msg : String) (retryAfter : Option Int) :
    is_retryable_error (Exc.authError msg) = false ∧
    is_retryable_error (Exc.permError msg) = false ∧
    is_retryable_error (Exc.rateLimitError retryAfter) = true :=
  ⟨rfl, rfl, rfl⟩

/-- C6 counterexample: a ConfluenceAPIError with absent status code and a
message free of every transience indicator is classified non-retryable,
contradicting the claimed fail-open default for API errors. -/
theorem C6_counterexample :
    exc_status_code (Exc.apiError "boom" none) = none ∧
    (retryable_patterns.any fun p =>
      contains_sub (py_lower (excStr (Exc.apiError "boom" none))) p) = false ∧
    is_retryable_error (Exc.apiError "boom" none) = false := by
  refine ⟨rfl, by decide, rfl⟩

/-- C6 (amended): for every non-API error whose text contains none of the
transience indicators the classifier defaults to retryable, but an API
error with absent (None) status code is classified non-retryable. -/
theorem C6_amended :
    (∀ e : Exc, isConfluenceAPIError e = false →
      (retryable_patterns.any fun p => contains_sub (py_lower (excStr e)) p) = false →
      is_retryable_error e = true) ∧
    (∀ msg : String, is_retryable_error (Exc.apiError msg none) = false) := by
  constructor
  · intro e hapi _
    simp [is_retryable_error, hapi]
  · intro msg
    rfl

/-- C6 witness: a plain Exception with an indicator-free message is
retryable, while an API error with no status code is not. -/
theorem C6_witness :
    is_retryable_error (Exc.generic "boom") = true ∧
    is_retryable_error (Exc.apiError "boom" none) = false :=
  ⟨C6_amended.1 (Exc.generic "boom") rfl (by decide), C6_amended.2 "boom"⟩

/-- C7: both converter entry points return "" for an absent (None) or empty
input, before any parsing or substitution takes place. -/
theorem C7_theorem (parse : String → List HNode) (transform : String → String) :
    html_to_markdown none parse = "" ∧
    html_to_markdown (some "") parse = "" ∧
    html_to_markdown_simple none transform = "" ∧
    html_to_markdown_simple (some "") transform = "" :=
  ⟨rfl, rfl, rfl, rfl⟩

/-- C8 counterexample: a pre block with class language-python and content
"  x = 1  " renders as a fence line carrying the language token, a space
and the stripped code on the same line; the claimed shape — the token
followed immediately by the newline that precedes the code — never occurs
in the output, and neither does the block's literal (unstripped) text
content. -/
theorem C8_counterexample :
    raw_text_list [HNode.text "  x = 1  "] = "  x = 1  " ∧
    process_element none (HNode.elem "pre" [] ["language-python"] [HNode.text "  x = 1  "]) =
      "\n```python x = 1\n```\n" ∧
    contains_sub
      (process_element none (HNode.elem "pre" [] ["language-python"] [HNode.text "  x = 1  "]))
      "```python\n" = false ∧
    contains_sub
      (process_element none (HNode.elem "pre" [] ["language-python"] [HNode.text "  x = 1  "]))
      "x = 1  " = false := by
  exact ⟨by decide, by decide, by decide, by decide⟩

/-- List.isPrefixOf holds of a list against itself followed by anything. -/
theorem isPrefixOf_append_self (l r : List Char) : l.isPrefixOf (l ++ r) = true := by
  induction l with
  | nil => simp [List.isPrefixOf]
  | cons a as ih => simp [List.isPrefixOf, ih]

/-- When ps is not a prefix of l, drop_prefix_after finds nothing. -/
theorem drop_prefix_after_eq_none {ps l : List Char} (h : ps.isPrefixOf l = false) :
    drop_prefix_after ps l = none := by
  induction ps generalizing l with
  | nil => simp [List.isPrefixOf] at h
  | cons p ps ih =>
    cases l with
    | nil => rfl
    | cons c cs =>
      by_cases hcp : c = p
      · subst hcp
        simp only [List.isPrefixOf, beq_self_eq_true, Bool.true_and] at h
        simp [drop_prefix_after, ih h]
      · have hne : (c == p) = false := beq_eq_false_iff_ne.mpr hcp
        simp [drop_prefix_after, hne]

/-- drop_prefix_after strips an exact leading copy of the pattern. -/
theorem drop_prefix_after_append (ps l : List Char) :
    drop_prefix_after ps (ps ++ l) = some l := by
  induction ps with
  | nil => rfl
  | cons p ps ih => simp [drop_prefix_after, ih]

/-- replace_fuel leaves a list without any occurrence of the pattern
unchanged, for every fuel. -/
theorem replace_fuel_eq_self (pat : String) (p : Char) (ps : List Char)
    (hp : pat.data = p :: ps) (rep : List Char) :
    ∀ (fuel : Nat) (l : List Char), contains_sub.go pat l = false →
      replace_fuel (p :: ps) rep fuel l = l := by
  intro fuel
  induction fuel with
  | zero => intro l _; rfl
  | succ f ih =>
    intro l hno
    cases l with
    | nil => rfl
    | cons c cs =>
      have hsplit : pat.data.isPrefixOf (c :: cs) = false ∧ contains_sub.go pat cs = false := by
        simpa [contains_sub.go] using hno
      have hpref : (p :: ps).isPrefixOf (c :: cs) = false := by
        rw [← hp]; exact hsplit.1
      simp [replace_fuel, drop_prefix_after_eq_none hpref, ih cs hsplit.2]

/-- Python (pat + L).replace(pat, "") = L whenever L itself contains no
occurrence of pat: exactly the computation the pre branch performs on a
class "language-" + L. -/
theorem py_replace_append_self (pat L : String) (p : Char) (ps : List Char)
    (hp : pat.data = p :: ps) (hL : contains_sub L pat = false) :
    py_replace (pat ++ L) pat "" = L := by
  have hgo : contains_sub.go pat L.data = false := hL
  have hd : (pat ++ L).data = p :: (ps ++ L.data) := by
    show pat.data ++ L.data = p :: (ps ++ L.data)
    rw [hp]
    rfl
  unfold py_replace
  rw [hp]
  change String.mk
    (replace_fuel (p :: ps) "".data ((pat ++ L).data).length ((pat ++ L).data)) = L
  rw [hd]
  have hdrop : drop_prefix_after (p :: ps) (p :: (ps ++ L.data)) = some L.data :=
    drop_prefix_after_append (p :: ps) L.data
  simp only [List.length_cons, replace_fuel, hdrop]
  rw [replace_fuel_eq_self pat p ps hp "".data ((ps ++ L.data).length) L.data hgo]
  rfl

/-- Python str.startswith holds of a string against its own prefix. -/
theorem starts_with_append (pre L : String) : starts_with (pre ++ L) pre = true := by
  show pre.data.isPrefixOf (pre.data ++ L.data) = true
  exact isPrefixOf_append_self pre.data L.data

/-- The language-hint fold ignores every class that does not start with
"language-", whatever the accumulator. -/
theorem pre_language_foldl_no_match (classes : List String) (acc : String)
    (h : ∀ c ∈ classes, starts_with c "language-" = false) :
    classes.foldl
      (fun acc c =>
        if starts_with c "language-" then py_replace c "language-" "" ++ " " else acc)
      acc = acc := by
  induction classes generalizing acc with
  | nil => rfl
  | cons x xs ih =>
    have hx : starts_with x "language-" = false := h x (by simp)
    have hxs : ∀ c ∈ xs, starts_with c "language-" = false := fun c hc => h c (by simp [hc])
    simp [List.foldl_cons, hx, ih acc hxs]

/-- The pre branch of process_element renders its fold through
pre_language; the two folds are syntactically identical. -/
theorem process_element_pre (parent : Option String) (attrs : List (String × String))
    (classes : List String) (children : List HNode) :
    process_element parent (HNode.elem "pre" attrs classes children) =
      "\n```" ++ pre_language classes ++ py_strip (raw_text_list children) ++ "\n```\n" :=
  rfl

/-- C8 (amended): every pre node renders its text content stripped of
leading and trailing whitespace between triple-backtick fences; with no
class starting with "language-" the opening fence is bare, and when the
class list contains "language-" + X (the last such class winning, with the
token X itself free of "language-") the token X followed by one space sits
directly after the opening backticks, with the code content following on
the same line and the closing fence on its own line. -/
theorem C8_amended (parent : Option String) (attrs : List (String × String))
    (children : List HNode) :
    (∀ classes : List String, (∀ c ∈ classes, starts_with c "language-" = false) →
      process_element parent (HNode.elem "pre" attrs classes children) =
        "\n```" ++ py_strip (raw_text_list children) ++ "\n```\n") ∧
    (∀ (before after : List String) (L : String),
      (∀ c ∈ after, starts_with c "language-" = false) →
      contains_sub L "language-" = false →
      process_element parent
          (HNode.elem "pre" attrs (before ++ ("language-" ++ L) :: after) children) =
        "\n```" ++ (L ++ " ") ++ py_strip (raw_text_list children) ++ "\n```\n") := by
  constructor
  · intro classes h
    rw [process_element_pre]
    have hempty : pre_language classes = "" := pre_language_foldl_no_match classes "" h
    rw [hempty]
    rfl
  · intro before after L h hL
    rw [process_element_pre]
    have hsw : starts_with ("language-" ++ L) "language-" = true :=
      starts_with_append "language-" L
    have hrep : py_replace ("language-" ++ L) "language-" "" = L :=
      py_replace_append_self "language-" L 'l' ['a', 'n', 'g', 'u', 'a', 'g', 'e', '-'] rfl hL
    have hlang : pre_language (before ++ ("language-" ++ L) :: after) = L ++ " " := by
      unfold pre_language
      rw [List.foldl_append, List.foldl_cons, if_pos hsw, hrep]
      exact pre_language_foldl_no_match after (L ++ " ") h
    rw [hlang]

/-- C8 witness: a class list with no language hint renders a bare fence,
and a three-class list whose middle class is language-js renders the js
token; the content " a " is stripped to "a". -/
theorem C8_witness :
    process_element none (HNode.elem "pre" [] ["highlight"] [HNode.text " a "]) =
      "\n```" ++ py_strip (raw_text_list [HNode.text " a "]) ++ "\n```\n" ∧
    process_element none
        (HNode.elem "pre" [] (["highlight"] ++ ("language-" ++ "js") :: ["x"])
          [HNode.text " a "]) =
      "\n```" ++ ("js" ++ " ") ++ py_strip (raw_text_list [HNode.text " a "]) ++ "\n```\n" :=
  ⟨(C8_amended none [] [HNode.text " a "]).1 ["highlight"] (by decide),
   (C8_amended none [] [HNode.text " a "]).2 ["highlight"] ["x"] "js" (by decide) (by decide)⟩

/-- C9 counterexample: an anchor with href but no text renders as "[](x)"
on the block path but contributes nothing on the inline-text path (here
inside a heading), so the two paths disagree on the claimed behaviour. -/
theorem C9_counterexample :
    process_element none (HNode.elem "a" [("href", "x")] [] []) = "[](x)" ∧
    get_element_text (HNode.elem "h1" [] [] [HNode.elem "a" [("href", "x")] [] []]) = "" ∧
    get_element_text (HNode.elem "h1" [] [] [HNode.elem "a" [("href", "x")] [] []]) ≠
      "[](x)" := by
  exact ⟨by decide, by decide, by decide⟩

/-- C9 (amended): on the block path an anchor with nonempty href renders as
[text](href) — including [](href) when the text is empty — and with empty
href as just its text; on the inline-text path an anchor with empty
stripped text contributes nothing even when an href is present, and with
nonempty text it renders as [text](href) or plain text according to the
href. -/
theorem C9_amended (parent : Option String) (attrs : List (String × String))
    (classes : List String) (children : List HNode) :
    ((attr_get attrs "href" "").isEmpty = false →
      process_element parent (HNode.elem "a" attrs classes children) =
        "[" ++ get_element_text (HNode.elem "a" attrs classes children) ++ "](" ++
          attr_get attrs "href" "" ++ ")") ∧
    ((attr_get attrs "href" "").isEmpty = true →
      process_element parent (HNode.elem "a" attrs classes children) =
        get_element_text (HNode.elem "a" attrs classes children)) ∧
    ((strip_text_list children).isEmpty = true →
      inline_child_text (HNode.elem "a" attrs classes children) = "") ∧
    ((strip_text_list children).isEmpty = false →
      inline_child_text (HNode.elem "a" attrs classes children) =
        (if (attr_get attrs "href" "").isEmpty then strip_text_list children
         else "[" ++ strip_text_list children ++ "](" ++ attr_get attrs "href" "" ++ ")")) := by
  refine ⟨?_, ?_, ?_, ?_⟩
  · intro h
    show (let t := get_element_text (HNode.elem "a" attrs classes children)
          let href := attr_get attrs "href" ""
          if !href.isEmpty then "[" ++ t ++ "](" ++ href ++ ")" else t) = _
    simp [h]
  · intro h
    show (let t := get_element_text (HNode.elem "a" attrs classes children)
          let href := attr_get attrs "href" ""
          if !href.isEmpty then "[" ++ t ++ "](" ++ href ++ ")" else t) = _
    simp [h]
  · intro h
    show (let t := strip_text_list children
          let href := attr_get attrs "href" ""
          if !t.isEmpty && !href.isEmpty then "[" ++ t ++ "](" ++ href ++ ")"
          else if !t.isEmpty then t
          else "") = _
    simp [h]
  · intro h
    show (let t := strip_text_list children
          let href := attr_get attrs "href" ""
          if !t.isEmpty && !href.isEmpty then "[" ++ t ++ "](" ++ href ++ ")"
          else if !t.isEmpty then t
          else "") = _
    simp only [h]
    cases hh : (attr_get attrs "href" "").isEmpty <;> simp [hh]

/-- C9 witness: concrete anchors exercising all four amended cases. -/
theorem C9_witness :
    process_element none (HNode.elem "a" [("href", "u")] [] [HNode.text "t"]) = "[t](u)" ∧
    process_element none (HNode.elem "a" [] [] [HNode.text "t"]) = "t" ∧
    inline_child_text (HNode.elem "a" [("href", "u")] [] []) = "" ∧
    inline_child_text (HNode.elem "a" [("href", "u")] [] [HNode.text "t"]) = "[t](u)" := by
  refine ⟨?_, ?_, ?_, ?_⟩
  · rw [(C9_amended none [("href", "u")] [] [HNode.text "t"]).1 (by decide)]; decide
  · rw [(C9_amended none [] [] [HNode.text "t"]).2.1 (by decide)]; decide
  · rw [(C9_amended none [("href", "u")] [] ([] : List HNode)).2.2.1 (by decide)]
  · rw [(C9_amended none [("href", "u")] [] [HNode.text "t"]).2.2.2 (by decide)]; decide

/-- C10: every call through handle_api_errors either returns the wrapped
function's successful result unchanged or returns a string that begins with
"Error: "; no modelled exception escapes the decorator. -/
theorem C10_theorem {α : Type} (call : Except Exc α) :
    (∀ a, call = Except.ok a → handle_api_errors call = HandledResult.value a) ∧
    (∀ e, call = Except.error e →
      ∃ rest, handle_api_errors call = HandledResult.errorMessage ("Error: " ++ rest)) := by
  constructor
  · intro a h
    subst h
    rfl
  · intro e h
    subst h
    exact ⟨error_body e, rfl⟩

/-- C10 witness: a successful call returns its value unchanged and a
MaxRetriesExceededError becomes an "Error: "-prefixed string. -/
theorem C10_witness :
    handle_api_errors (Except.ok 42 : Except Exc Nat) = HandledResult.value 42 ∧
    ∃ rest,
      handle_api_errors (Except.error (Exc.maxRetries "m" 3 none) : Except Exc Nat) =
        HandledResult.errorMessage ("Error: " ++ rest) :=
  ⟨(C10_theorem (Except.ok 42)).1 42 rfl,
   (C10_theorem (Except.error (Exc.maxRetries "m" 3 none))).2 (Exc.maxRetries "m" 3 none) rfl⟩
